import Mathlib

/-
Verification development for the power-management safety core
(src/firmware). The C sources are shallowly embedded: 8-bit machine
words are Nat values reduced mod 256 where the hardware would truncate,
32-bit counters mod 2^32, 16-bit fields mod 2^16. Dual-rail (DCLS)
fields declared with enum types in C are modelled as 8-bit words, as the
data model (spec section 3) defines a dual-rail byte; the stored
complement of a value v is v ^^^ 0xFF.
-/

/-! ## Safety state and fault type byte codes (safety_types.h) -/

def SAFETY_STATE_INIT : Nat := 0x55

def SAFETY_STATE_NORMAL : Nat := 0xAA

def SAFETY_STATE_FAULT : Nat := 0xCC

def SAFETY_STATE_SAFE_STATE : Nat := 0x33

def SAFETY_STATE_RECOVERY : Nat := 0x99

def SAFETY_STATE_INVALID : Nat := 0xFF

def FAULT_TYPE_NONE : Nat := 0x00

def FAULT_TYPE_VDD : Nat := 0x01

def FAULT_TYPE_CLK : Nat := 0x02

def FAULT_TYPE_MEM_ECC : Nat := 0x04

def FAULT_TYPE_INVALID : Nat := 0xFF

def RECOVERY_PENDING_CODE : Nat := 0x00

/-- VERIFY_FAULT_FLAG macro from safety_types.h: a dual-rail pair is
consistent iff value XOR complement equals 0xFF. -/
def VERIFY_FAULT_FLAG (flag flagCmp : Nat) : Bool :=
  (flag ^^^ flagCmp) == 0xFF

/-! ## Data model: fault_flags_t and safety_status_t (safety_types.h) -/

/-- fault_flags_t: the three per-source dual-rail fault flags held inside
the global safety status record. -/
structure FaultFlags where
  pwr_fault : Nat
  pwr_fault_cmp : Nat
  clk_fault : Nat
  clk_fault_cmp : Nat
  mem_fault : Nat
  mem_fault_cmp : Nat
deriving DecidableEq

/-- safety_status_t: the singleton safety status record maintained by the
FSM (state and active-fault dual-rail words, recovery status, fault
count, timestamp, per-source flags). -/
structure SafetyStatus where
  current_state : Nat
  current_state_cmp : Nat
  active_faults : Nat
  active_faults_cmp : Nat
  recovery_status : Nat
  fault_count : Nat
  timestamp_ms : Nat
  fault_flags : FaultFlags
deriving DecidableEq

/-- The FSM module state: the global safety status together with the
g_fsm_initialized flag (safety_fsm.c). -/
structure FsmState where
  status : SafetyStatus
  initialized : Bool
deriving DecidableEq

/-- The static initializer of g_safety_status in safety_fsm.c, together
with g_fsm_initialized = false: the freshly loaded module state. -/
def freshFsm : FsmState :=
  { status :=
      { current_state := SAFETY_STATE_INIT
        current_state_cmp := SAFETY_STATE_INIT ^^^ 0xFF
        active_faults := FAULT_TYPE_NONE
        active_faults_cmp := FAULT_TYPE_NONE ^^^ 0xFF
        recovery_status := RECOVERY_PENDING_CODE
        fault_count := 0
        timestamp_ms := 0
        fault_flags :=
          { pwr_fault := 0x00, pwr_fault_cmp := 0xFF
            clk_fault := 0x00, clk_fault_cmp := 0xFF
            mem_fault := 0x00, mem_fault_cmp := 0xFF } }
    initialized := false }

/-! ## Safety FSM (safety_fsm.c) -/

/-- g_transition_matrix: rows are the current state index, columns the
requested next state index; true means the transition is admitted. -/
def g_transition_matrix : List (List Bool) :=
  [ [false, true,  false, false, false, false],
    [false, true,  true,  true,  false, false],
    [false, false, true,  true,  true,  false],
    [false, false, false, true,  true,  false],
    [false, true,  true,  true,  true,  false],
    [false, false, false, false, false, false] ]

/-- Matrix lookup: out-of-range indices read as false (indices produced
by fsm_state_to_index are always in range). -/
def matrixAllows (i j : Nat) : Bool :=
  ((g_transition_matrix.getD i []).getD j false)

/-- fsm_state_to_index: maps a state byte to its row/column in the
transition matrix; any unknown byte maps to the INVALID index 5. -/
def fsm_state_to_index (state : Nat) : Nat :=
  if state = SAFETY_STATE_INIT then 0
  else if state = SAFETY_STATE_NORMAL then 1
  else if state = SAFETY_STATE_FAULT then 2
  else if state = SAFETY_STATE_SAFE_STATE then 3
  else if state = SAFETY_STATE_RECOVERY then 4
  else 5

/-- fsm_init: rejects double initialization, otherwise resets the status
record to the INIT state with all flags clear and marks the module
initialized. Returns the C function result paired with the new state. -/
def fsm_init (s : FsmState) : Bool × FsmState :=
  if s.initialized then (false, s)
  else
    (true,
      { status :=
          { current_state := SAFETY_STATE_INIT
            current_state_cmp := SAFETY_STATE_INIT ^^^ 0xFF
            active_faults := FAULT_TYPE_NONE
            active_faults_cmp := FAULT_TYPE_NONE ^^^ 0xFF
            recovery_status := RECOVERY_PENDING_CODE
            fault_count := 0
            timestamp_ms := 0
            fault_flags :=
              { pwr_fault := 0x00, pwr_fault_cmp := 0xFF
                clk_fault := 0x00, clk_fault_cmp := 0xFF
                mem_fault := 0x00, mem_fault_cmp := 0xFF } }
        initialized := true })

/-- fsm_transition: validates the requested edge against the matrix; an
inadmissible edge stores the INVALID latch (0xFF with complement 0x00)
and reports failure, an admissible edge stores the new state with its
complement and stamps the timestamp. -/
def fsm_transition (next_state : Nat) (s : FsmState) : Bool × FsmState :=
  if !s.initialized then (false, s)
  else
    let current_idx := fsm_state_to_index s.status.current_state
    let next_idx := fsm_state_to_index next_state
    if !matrixAllows current_idx next_idx then
      (false,
        { s with status :=
            { s.status with
                current_state := SAFETY_STATE_INVALID
                current_state_cmp := SAFETY_STATE_INVALID ^^^ 0xFF } })
    else
      (true,
        { s with status :=
            { s.status with
                current_state := next_state
                current_state_cmp := next_state ^^^ 0xFF
                timestamp_ms := 0 } })

/-- fsm_get_state: reads the state dual-rail pair; any DCLS mismatch
reads as SAFETY_STATE_INVALID. -/
def fsm_get_state (s : FsmState) : Nat :=
  if (s.status.current_state ^^^ s.status.current_state_cmp) ≠ 0xFF then
    SAFETY_STATE_INVALID
  else s.status.current_state

/-- fsm_get_status: verifies the state and active-fault dual-rail pairs
and copies the status record; none models the false return for a DCLS
failure (the NULL-pointer guard is not modelled, the output is the
return value). -/
def fsm_get_status (s : FsmState) : Option SafetyStatus :=
  if (s.status.current_state ^^^ s.status.current_state_cmp) ≠ 0xFF then none
  else if (s.status.active_faults ^^^ s.status.active_faults_cmp) ≠ 0xFF then none
  else some s.status

/-- The fault set aggregated from the per-source flags: the OR of the
codes of the sources whose flag byte is non-zero (the local variable
aggregated accumulated across the three checks of
fsm_aggregate_faults). -/
def aggregatedOf (s : FsmState) : Nat :=
  (if s.status.fault_flags.pwr_fault ≠ 0 then FAULT_TYPE_VDD else 0) |||
  (if s.status.fault_flags.clk_fault ≠ 0 then FAULT_TYPE_CLK else 0) |||
  (if s.status.fault_flags.mem_fault ≠ 0 then FAULT_TYPE_MEM_ECC else 0)

/-- The module state after fsm_aggregate_faults has written the fresh
fault set and its complement into active_faults (the local s1 stage:
Update active faults atomically). -/
def fsm_agg_s1 (s : FsmState) : FsmState :=
  { s with status :=
      { s.status with
          active_faults := aggregatedOf s
          active_faults_cmp := aggregatedOf s ^^^ 0xFF } }

/-- The stage after the 16-bit fault_count increment that follows a
non-empty aggregation (the local s2 stage). -/
def fsm_agg_s2 (s : FsmState) : FsmState :=
  { fsm_agg_s1 s with status :=
      { (fsm_agg_s1 s).status with
          fault_count := ((fsm_agg_s1 s).status.fault_count + 1) % 65536 } }

/-- fsm_aggregate_faults: rejects an INVALID (or corrupted) state, checks
each per-source flag pair aborting on the first DCLS failure, rewrites
active_faults with the OR of the asserted sources, and on a non-empty
fault set bumps fault_count (16-bit) and performs NORMAL to FAULT. -/
def fsm_aggregate_faults (s : FsmState) : Bool × FsmState :=
  let current_state := fsm_get_state s
  if current_state = SAFETY_STATE_INVALID then (false, s)
  else if !VERIFY_FAULT_FLAG s.status.fault_flags.pwr_fault
      s.status.fault_flags.pwr_fault_cmp then (false, s)
  else if !VERIFY_FAULT_FLAG s.status.fault_flags.clk_fault
      s.status.fault_flags.clk_fault_cmp then (false, s)
  else if !VERIFY_FAULT_FLAG s.status.fault_flags.mem_fault
      s.status.fault_flags.mem_fault_cmp then (false, s)
  else if aggregatedOf s ≠ FAULT_TYPE_NONE then
    if current_state = SAFETY_STATE_NORMAL then
      fsm_transition SAFETY_STATE_FAULT (fsm_agg_s2 s)
    else (true, fsm_agg_s2 s)
  else (true, fsm_agg_s1 s)

/-- The flag-clearing phase of fsm_clear_faults: each bit of the mask
resets the matching per-source pair to the clear encoding 0x00/0xFF. -/
def clearedFlags (faults_to_clear : Nat) (ff : FaultFlags) : FaultFlags :=
  let ff1 := if faults_to_clear &&& FAULT_TYPE_VDD ≠ 0 then
      { ff with pwr_fault := 0x00, pwr_fault_cmp := 0xFF } else ff
  let ff2 := if faults_to_clear &&& FAULT_TYPE_CLK ≠ 0 then
      { ff1 with clk_fault := 0x00, clk_fault_cmp := 0xFF } else ff1
  if faults_to_clear &&& FAULT_TYPE_MEM_ECC ≠ 0 then
    { ff2 with mem_fault := 0x00, mem_fault_cmp := 0xFF } else ff2

/-- fsm_clear_faults: clears the per-source flag pair for each bit of the
mask, then re-runs aggregation and returns its result. -/
def fsm_clear_faults (faults_to_clear : Nat) (s : FsmState) : Bool × FsmState :=
  fsm_aggregate_faults
    { s with status :=
        { s.status with
            fault_flags := clearedFlags faults_to_clear s.status.fault_flags } }

/-- The task-context operations on the FSM module state, used to model
call sequences. -/
inductive FsmOp where
  | transition (next : Nat)
  | aggregate
  | clearFaults (mask : Nat)
deriving DecidableEq

/-- One operation applied to the module state (the returned status code
is discarded, as a caller issuing a sequence would). -/
def fsm_step (op : FsmOp) (s : FsmState) : FsmState :=
  match op with
  | .transition next => (fsm_transition next s).2
  | .aggregate => (fsm_aggregate_faults s).2
  | .clearFaults mask => (fsm_clear_faults mask s).2

/-- A completed sequence of task-context operations. -/
def fsm_run (ops : List FsmOp) (s : FsmState) : FsmState :=
  ops.foldl (fun st op => fsm_step op st) s

/-- Effect of vdd_isr_handler (interrupt_handler.c) on the shared fault
flags: the documented atomic dual store writes pwr_fault = 0xAA and
pwr_fault_cmp = 0x55 (a consistent, asserted pair). The handler's own
diagnostic counters live in separate globals not read by any claim. -/
def vdd_isr_set_fault_flag (s : FsmState) : FsmState :=
  { s with status :=
      { s.status with fault_flags :=
          { s.status.fault_flags with pwr_fault := 0xAA, pwr_fault_cmp := 0x55 } } }

/-! ## Fault aggregator (fault_aggregator.c) -/

/-- SAFETY_OK / SAFETY_PENDING / SAFETY_ERROR / SAFETY_DCLS_ERROR: the
result taxonomy used by the clock modules. The enum itself is declared
in a header outside src; the four variants follow the spec's result
taxonomy (section 6) and the values used throughout the sources. -/
inductive SafetyResult where
  | SAFETY_OK
  | SAFETY_PENDING
  | SAFETY_ERROR
  | SAFETY_DCLS_ERROR
deriving DecidableEq

export SafetyResult (SAFETY_OK SAFETY_PENDING SAFETY_ERROR SAFETY_DCLS_ERROR)

/-- The module statics of the fault aggregator: the non-reentrant busy
gate and the aggregation attempt counter (the last-aggregation
timestamp, written 0 on success, is a diagnostic not read by any
claim). -/
structure AggregatorState where
  g_aggregator_busy : Bool
  g_aggregation_attempts : Nat
deriving DecidableEq

/-- fault_aggregate: fail fast when the aggregator is busy; past the
gate the busy flag is taken and the 32-bit attempt counter advances, and
every return path releases the flag, so the returned aggregator state is
not-busy with the attempt counted. The function then verifies the status
record, checks each flag pair aborting on a DCLS failure, writes the
highest-priority active fault to the output and runs
fsm_aggregate_faults. The output cell is written (Step 3) before the FSM
call, so a failing FSM call still leaves the output written; the second
component is the value written to the output cell, none when the
function returned before reaching Step 3. -/
def fault_aggregate (a : AggregatorState) (s : FsmState) :
    Bool × Option Nat × AggregatorState × FsmState :=
  if a.g_aggregator_busy then (false, none, a, s)
  else
    let a1 : AggregatorState :=
      { g_aggregator_busy := false
        g_aggregation_attempts := (a.g_aggregation_attempts + 1) % 4294967296 }
    match fsm_get_status s with
    | none => (false, none, a1, s)
    | some current_status =>
      if !VERIFY_FAULT_FLAG current_status.fault_flags.pwr_fault
          current_status.fault_flags.pwr_fault_cmp then (false, none, a1, s)
      else if !VERIFY_FAULT_FLAG current_status.fault_flags.clk_fault
          current_status.fault_flags.clk_fault_cmp then (false, none, a1, s)
      else if !VERIFY_FAULT_FLAG current_status.fault_flags.mem_fault
          current_status.fault_flags.mem_fault_cmp then (false, none, a1, s)
      else
        let result :=
          (if current_status.fault_flags.pwr_fault ≠ 0 then FAULT_TYPE_VDD else 0) |||
          (if current_status.fault_flags.clk_fault ≠ 0 then FAULT_TYPE_CLK else 0) |||
          (if current_status.fault_flags.mem_fault ≠ 0 then FAULT_TYPE_MEM_ECC else 0)
        let highest_priority_fault :=
          if result &&& FAULT_TYPE_VDD ≠ 0 then FAULT_TYPE_VDD
          else if result &&& FAULT_TYPE_CLK ≠ 0 then FAULT_TYPE_CLK
          else if result &&& FAULT_TYPE_MEM_ECC ≠ 0 then FAULT_TYPE_MEM_ECC
          else FAULT_TYPE_NONE
        let fsmCall := fsm_aggregate_faults s
        if fsmCall.1 then (true, some highest_priority_fault, a1, fsmCall.2)
        else (false, some highest_priority_fault, a1, fsmCall.2)

/-- fault_get_highest_priority: reads the verified status and selects the
highest-priority active fault, VDD before CLK before MEM; the second
component is the priority output (1, 2, 3, 0 for none, 0xFF on a DCLS
failure of the status record). -/
def fault_get_highest_priority (s : FsmState) : Nat × Nat :=
  match fsm_get_status s with
  | none => (FAULT_TYPE_INVALID, 0xFF)
  | some status =>
    if status.active_faults &&& FAULT_TYPE_VDD ≠ 0 then (FAULT_TYPE_VDD, 1)
    else if status.active_faults &&& FAULT_TYPE_CLK ≠ 0 then (FAULT_TYPE_CLK, 2)
    else if status.active_faults &&& FAULT_TYPE_MEM_ECC ≠ 0 then (FAULT_TYPE_MEM_ECC, 3)
    else (FAULT_TYPE_NONE, 0)

/-! ## Clock loss event handler (clk_event_handler.c) -/

/-- The module-static state of the clock event handler: event counter,
dual-rail fault flag, diagnostic timestamp and ISR nesting level. -/
structure ClkState where
  clk_fault_event_count : Nat
  clk_fault_flag : Nat
  clk_fault_flag_complement : Nat
  clk_loss_timestamp : Nat
  clk_isr_nesting_level : Nat
deriving DecidableEq

def CLK_ISR_MAX_NESTING : Nat := 8

/-- clk_event_handler_init: counters to zero and the flag pair to the
nominal clear encoding. -/
def clk_event_handler_init : ClkState :=
  { clk_fault_event_count := 0
    clk_fault_flag := 0x00
    clk_fault_flag_complement := 0xFF
    clk_loss_timestamp := 0
    clk_isr_nesting_level := 0 }

/-- clk_event_handler_get_fault_flag: a DCLS mismatch writes false to the
output and returns SAFETY_DCLS_ERROR; otherwise the output is the flag
interpreted as a boolean and the call returns SAFETY_OK. The result is
the return code paired with the written output. -/
def clk_event_handler_get_fault_flag (st : ClkState) : SafetyResult × Bool :=
  if (st.clk_fault_flag ^^^ st.clk_fault_flag_complement) ≠ 0xFF then
    (SAFETY_DCLS_ERROR, false)
  else
    (SAFETY_OK, st.clk_fault_flag ≠ 0)

/-- clk_event_handler_clear_fault: rewrites the nominal clear pair and
verifies it. -/
def clk_event_handler_clear_fault (st : ClkState) : SafetyResult × ClkState :=
  let st1 := { st with clk_fault_flag := 0x00, clk_fault_flag_complement := 0xFF }
  if (st1.clk_fault_flag ^^^ st1.clk_fault_flag_complement) ≠ 0xFF then
    (SAFETY_ERROR, st1)
  else (SAFETY_OK, st1)

/-- Steps 1 to 4 of clk_event_handler_clk_loss_isr on the non-overflow
path: the incremented 8-bit nesting level, the asserted flag pair
0x01/0xFE, the saturating event counter bump, and the event count
captured as the proxy timestamp. -/
def clk_isr_entry (st : ClkState) : ClkState :=
  let count :=
    if st.clk_fault_event_count < 0xFFFFFFFF then st.clk_fault_event_count + 1
    else st.clk_fault_event_count
  { st with
      clk_isr_nesting_level := (st.clk_isr_nesting_level + 1) % 256
      clk_fault_flag := 0x01
      clk_fault_flag_complement := 0x01 ^^^ 0xFF
      clk_fault_event_count := count
      clk_loss_timestamp := count }

/-- Nested runs of clk_event_handler_clk_loss_isr to depth d: each
invocation increments the nesting level (8-bit) and takes the
over-nesting branch when the incremented level exceeds
CLK_ISR_MAX_NESTING (writing 0xFF to both flag halves, saturating the
level, returning early); otherwise it runs clk_isr_entry, is preempted
by the next nested invocation, and decrements the level on exit
(step 5). -/
def clk_loss_isr_nested : Nat → ClkState → ClkState
  | 0, st => st
  | d + 1, st =>
    if (st.clk_isr_nesting_level + 1) % 256 > CLK_ISR_MAX_NESTING then
      { st with
          clk_fault_flag := 0xFF
          clk_fault_flag_complement := 0xFF
          clk_isr_nesting_level := CLK_ISR_MAX_NESTING }
    else
      let st2 := clk_loss_isr_nested d (clk_isr_entry st)
      { st2 with clk_isr_nesting_level := st2.clk_isr_nesting_level - 1 }

/-! ## ECC fault handler (ecc_handler.c) -/

/-- mem_fault_state_t: dual-rail memory fault flag, ISR nesting counter
and event counter. -/
structure MemFaultState where
  mem_fault_flag : Nat
  mem_fault_flag_complement : Nat
  mem_isr_nesting_count : Nat
  mem_fault_event_count : Nat
deriving DecidableEq

def ECC_ISR_NESTING_MAX : Nat := 8

/-- ecc_handler_init effect on mem_fault_state: cleared flag pair and
zeroed counters (the diagnostic ecc_handler_state record is not read by
any claim). -/
def ecc_handler_init_state : MemFaultState :=
  { mem_fault_flag := 0x00
    mem_fault_flag_complement := 0xFF
    mem_isr_nesting_count := 0
    mem_fault_event_count := 0 }

/-- The body of ecc_fault_isr up to the preemption point on the
non-overflow path: the incremented nesting counter, the asserted pair
0x01/0xFE, and the event counter bump whose 32-bit wrap is capped at
0xFFFFFFFF. -/
def ecc_isr_entry (st : MemFaultState) : MemFaultState :=
  let count := (st.mem_fault_event_count + 1) % 4294967296
  let count := if count = 0 then 0xFFFFFFFF else count
  { st with
      mem_isr_nesting_count := st.mem_isr_nesting_count + 1
      mem_fault_flag := 0x01
      mem_fault_flag_complement := 0xFE
      mem_fault_event_count := count }

/-- Nested runs of ecc_fault_isr to depth d: an invocation entered while
the nesting counter already equals ECC_ISR_NESTING_MAX writes the pair
0xFF/0x00 and returns early without touching the counter; otherwise it
runs ecc_isr_entry, is preempted by the next nested invocation, and
decrements the counter on exit. -/
def ecc_fault_isr_nested : Nat → MemFaultState → MemFaultState
  | 0, st => st
  | d + 1, st =>
    if st.mem_isr_nesting_count ≥ ECC_ISR_NESTING_MAX then
      { st with mem_fault_flag := 0xFF, mem_fault_flag_complement := 0x00 }
    else
      let st2 := ecc_fault_isr_nested d (ecc_isr_entry st)
      { st2 with mem_isr_nesting_count := st2.mem_isr_nesting_count - 1 }

/-- ecc_fault_is_active: a DCLS mismatch reads as false (the source
comments this path as reporting no fault); a consistent pair reads as
the flag interpreted as a boolean. -/
def ecc_fault_is_active (m : MemFaultState) : Bool :=
  if (m.mem_fault_flag ^^^ m.mem_fault_flag_complement) ≠ 0xFF then false
  else m.mem_fault_flag ≠ 0

/-- ecc_fault_detect_corruption: true iff the flag pair violates the
dual-rail invariant. -/
def ecc_fault_detect_corruption (m : MemFaultState) : Bool :=
  (m.mem_fault_flag ^^^ m.mem_fault_flag_complement) ≠ 0xFF

/-- ecc_fault_clear: refuses (leaving the state untouched) unless the
flag is currently active and consistent; otherwise writes the cleared
pair 0x00/0xFF and verifies it. -/
def ecc_fault_clear (m : MemFaultState) : Bool × MemFaultState :=
  if !ecc_fault_is_active m then (false, m)
  else
    let m1 := { m with mem_fault_flag := 0x00, mem_fault_flag_complement := 0xFF }
    ((m1.mem_fault_flag ^^^ m1.mem_fault_flag_complement) == 0xFF, m1)

/-! ## Clock recovery service (clk_monitor_service.c) -/

def CLK_SERVICE_STATE_IDLE : Nat := 0x00

def CLK_SERVICE_STATE_FAULT_ACTIVE : Nat := 0x01

def CLK_SERVICE_STATE_RECOVERY_PENDING : Nat := 0x02

def CLK_SERVICE_STATE_RECOVERY_CONFIRMED : Nat := 0x03

def recovery_timeout_ticks : Nat := 10

def stability_check_duration : Nat := 5

/-- The persistent state of the clock recovery service. -/
structure ClkService where
  clk_service_state : Nat
  clk_recovery_timeout_counter : Nat
  clk_stability_counter : Nat
  clk_recovery_attempts : Nat
deriving DecidableEq

/-- clk_service_init: idle with all counters cleared. -/
def clk_service_init : ClkService :=
  { clk_service_state := CLK_SERVICE_STATE_IDLE
    clk_recovery_timeout_counter := 0
    clk_stability_counter := 0
    clk_recovery_attempts := 0 }

/-- clk_service_handle_fault: ignored unless idle; otherwise moves to
fault-active, resets both counters and counts the attempt. -/
def clk_service_handle_fault (s : ClkService) : SafetyResult × ClkService :=
  if s.clk_service_state ≠ CLK_SERVICE_STATE_IDLE then (SAFETY_OK, s)
  else
    (SAFETY_OK,
      { clk_service_state := CLK_SERVICE_STATE_FAULT_ACTIVE
        clk_recovery_timeout_counter := 0
        clk_stability_counter := 0
        clk_recovery_attempts := (s.clk_recovery_attempts + 1) % 4294967296 })

/-- clk_service_request_recovery: OK when idle, OK (and reset to idle)
when confirmed, PENDING while validating, ERROR on a corrupt state. -/
def clk_service_request_recovery (s : ClkService) : SafetyResult × ClkService :=
  if s.clk_service_state = CLK_SERVICE_STATE_IDLE then (SAFETY_OK, s)
  else if s.clk_service_state = CLK_SERVICE_STATE_RECOVERY_CONFIRMED then
    (SAFETY_OK, { s with clk_service_state := CLK_SERVICE_STATE_IDLE })
  else if s.clk_service_state = CLK_SERVICE_STATE_RECOVERY_PENDING ∨
      s.clk_service_state = CLK_SERVICE_STATE_FAULT_ACTIVE then
    (SAFETY_PENDING, s)
  else (SAFETY_ERROR, s)

/-- clk_service_task, one 10 ms tick of the recovery state machine.
Modelled from the spec: the hardware clock-fault signal read at the top
of the task (the source stubs the register read with a simulation
placeholder) is taken as the input fault_asserted. The state machine
below follows the source switch verbatim: fault-active first increments
the timeout counter and abandons to idle when it reaches the timeout
(the source's timeout branch holds only a TODO comment, no statistics
call); recovery-pending falls back to fault-active on a re-fault,
otherwise counts stability ticks toward confirmation. -/
def clk_service_task (fault_asserted : Bool) (s : ClkService) : ClkService :=
  if s.clk_service_state = CLK_SERVICE_STATE_IDLE then
    if fault_asserted then
      { s with
          clk_service_state := CLK_SERVICE_STATE_FAULT_ACTIVE
          clk_recovery_timeout_counter := 0
          clk_stability_counter := 0 }
    else s
  else if s.clk_service_state = CLK_SERVICE_STATE_FAULT_ACTIVE then
    let t := (s.clk_recovery_timeout_counter + 1) % 4294967296
    if t ≥ recovery_timeout_ticks then
      { s with
          clk_service_state := CLK_SERVICE_STATE_IDLE
          clk_recovery_timeout_counter := 0 }
    else if !fault_asserted then
      { s with
          clk_service_state := CLK_SERVICE_STATE_RECOVERY_PENDING
          clk_recovery_timeout_counter := t
          clk_stability_counter := 0 }
    else { s with clk_recovery_timeout_counter := t }
  else if s.clk_service_state = CLK_SERVICE_STATE_RECOVERY_PENDING then
    if fault_asserted then
      { s with
          clk_service_state := CLK_SERVICE_STATE_FAULT_ACTIVE
          clk_recovery_timeout_counter := 0
          clk_stability_counter := 0 }
    else
      let c := (s.clk_stability_counter + 1) % 4294967296
      if c ≥ stability_check_duration then
        { s with
            clk_service_state := CLK_SERVICE_STATE_RECOVERY_CONFIRMED
            clk_stability_counter := c }
      else { s with clk_stability_counter := c }
  else if s.clk_service_state = CLK_SERVICE_STATE_RECOVERY_CONFIRMED then
    if fault_asserted then
      { s with
          clk_service_state := CLK_SERVICE_STATE_FAULT_ACTIVE
          clk_recovery_timeout_counter := 0
          clk_stability_counter := 0 }
    else s
  else { s with clk_service_state := CLK_SERVICE_STATE_IDLE }

/-! ## Fault statistics (fault_statistics.c) -/

/-- fault_statistics_t: per-source detected/undetected tallies, recovery
outcomes, uptime. -/
structure FaultStatistics where
  vdd_faults_detected : Nat
  vdd_faults_undetected : Nat
  clk_faults_detected : Nat
  clk_faults_undetected : Nat
  mem_faults_detected : Nat
  mem_faults_undetected : Nat
  recovery_successes : Nat
  recovery_failures : Nat
  uptime_ms : Nat
  last_update_ms : Nat
deriving DecidableEq

/-- The static initializer of g_fault_stats. -/
def fault_stats_zero : FaultStatistics :=
  { vdd_faults_detected := 0, vdd_faults_undetected := 0
    clk_faults_detected := 0, clk_faults_undetected := 0
    mem_faults_detected := 0, mem_faults_undetected := 0
    recovery_successes := 0, recovery_failures := 0
    uptime_ms := 0, last_update_ms := 0 }

/-- fault_stats_record_recovery_failure: fails fast while the stats lock
is held, otherwise bumps recovery_failures (32-bit). -/
def fault_stats_record_recovery_failure (locked : Bool) (st : FaultStatistics) :
    Bool × FaultStatistics :=
  if locked then (false, st)
  else
    (true,
      { st with
          recovery_failures := (st.recovery_failures + 1) % 4294967296
          last_update_ms := 0 })

/-- The arithmetic core of fault_stats_calculate_dc after the per-type
switch has selected the detected/undetected pair: total and product are
32-bit, the quotient is truncated to the uint8 output before the clamp
to 100. -/
def calculate_dc_core (detected undetected : Nat) : Nat :=
  let total := (detected + undetected) % 4294967296
  if total = 0 then 0
  else
    let dc := (((detected * 100) % 4294967296) / total) % 256
    if dc > 100 then 100 else dc

/-- fault_stats_calculate_dc: selects the counters of the requested
fault type (none for an unknown type, modelling the false return) and
applies the DC computation. -/
def fault_stats_calculate_dc (fault_type : Nat) (st : FaultStatistics) : Option Nat :=
  if fault_type = FAULT_TYPE_VDD then
    some (calculate_dc_core st.vdd_faults_detected st.vdd_faults_undetected)
  else if fault_type = FAULT_TYPE_CLK then
    some (calculate_dc_core st.clk_faults_detected st.clk_faults_undetected)
  else if fault_type = FAULT_TYPE_MEM_ECC then
    some (calculate_dc_core st.mem_faults_detected st.mem_faults_undetected)
  else none

/-- fault_stats_get_total_faults: 32-bit sum of the three detected
counters. -/
def fault_stats_get_total_faults (st : FaultStatistics) : Nat :=
  (st.vdd_faults_detected + st.clk_faults_detected + st.mem_faults_detected) %
    4294967296

/-- fault_stats_get_fault_rate_per_hour: computes uptime in whole hours
and returns 0 when that is zero; otherwise the written output is
total_faults * 3600 (32-bit product) divided by uptime_ms, truncated to
the uint16 output. -/
def fault_stats_get_fault_rate_per_hour (st : FaultStatistics) : Option Nat :=
  let total_faults := fault_stats_get_total_faults st
  let uptime_hours := st.uptime_ms / (1000 * 60 * 60)
  if uptime_hours = 0 then some 0
  else some ((((total_faults * 3600) % 4294967296) / st.uptime_ms) % 65536)

/-- Modelled from the spec: the fault rate the specification prescribes,
total detected faults times 3,600,000 divided by uptime_ms, defined as 0
when the denominator is zero (spec section 4.6). Used only to compare
the claimed formula against the embedded source function. -/
def spec_fault_rate_per_hour (st : FaultStatistics) : Nat :=
  if st.uptime_ms = 0 then 0
  else fault_stats_get_total_faults st * 3600000 / st.uptime_ms

/-! ## Scenario states and helper lemmas -/

/-- Module state right after the first fsm_init call on a fresh system. -/
def postInitFsm : FsmState := (fsm_init freshFsm).2

/-- Module state after fsm_init followed by the INIT to NORMAL power-up
transition. -/
def normalFsm : FsmState := (fsm_transition SAFETY_STATE_NORMAL postInitFsm).2

/-- Module state in FAULT with the VDD fault active: NORMAL, then the VDD
ISR asserts its flag, then one aggregation tick runs. -/
def faultVddFsm : FsmState :=
  (fsm_aggregate_faults (vdd_isr_set_fault_flag normalFsm)).2

/-- A freshly initialized FSM whose CLK flag pair has been corrupted to
equal halves (the S6 scenario shape). -/
def corruptClkFsm : FsmState :=
  { postInitFsm with status :=
      { postInitFsm.status with fault_flags :=
          { postInitFsm.status.fault_flags with
              clk_fault := 0x01, clk_fault_cmp := 0x01 } } }

lemma fsm_get_state_eq_of_ne_invalid (s : FsmState) (v : Nat)
    (h : fsm_get_state s = v) (hv : v ≠ 0xFF) :
    s.status.current_state = v := by
  unfold fsm_get_state at h
  split at h
  · simp only [SAFETY_STATE_INVALID] at h
    exact absurd h.symm hv
  · exact h

/-- C1 counterexample: in the S1 scenario (fresh init, one VDD ISR, one
aggregation tick, no transition to NORMAL) the state read back is INIT,
not FAULT as the claim requires. -/
theorem c1_state_not_fault_counterexample :
    fsm_get_state (fsm_aggregate_faults (vdd_isr_set_fault_flag postInitFsm)).2 =
      SAFETY_STATE_INIT ∧
    SAFETY_STATE_INIT ≠ SAFETY_STATE_FAULT := by
  constructor
  · decide
  · decide

/-- C1 (amended): starting from a freshly initialized system, after one
VDD ISR invocation and one aggregation tick, active_faults equals VDD,
fault_count equals 1, and fault_get_highest_priority returns VDD with
priority output 1; but the state read by fsm_get_state equals INIT — the
FSM enters FAULT only when aggregation runs in NORMAL. -/
theorem c1_single_vdd_fault_scenario :
    (fsm_aggregate_faults (vdd_isr_set_fault_flag postInitFsm)).1 = true ∧
    (fsm_aggregate_faults (vdd_isr_set_fault_flag postInitFsm)).2.status.active_faults =
      FAULT_TYPE_VDD ∧
    fsm_get_state (fsm_aggregate_faults (vdd_isr_set_fault_flag postInitFsm)).2 =
      SAFETY_STATE_INIT ∧
    (fsm_aggregate_faults (vdd_isr_set_fault_flag postInitFsm)).2.status.fault_count = 1 ∧
    fault_get_highest_priority (fsm_aggregate_faults (vdd_isr_set_fault_flag postInitFsm)).2 =
      (FAULT_TYPE_VDD, 1) := by
  refine ⟨by decide, by decide, by decide, by decide, by decide⟩

/-- C2 counterexample: with the FSM in FAULT on the VDD fault,
fsm_clear_faults clearing the VDD flag succeeds and leaves the FSM still
in FAULT with active_faults = 0, violating invariant I3 at a quiescent
point. -/
theorem c2_clear_faults_breaks_i3 :
    fsm_get_state faultVddFsm = SAFETY_STATE_FAULT ∧
    (fsm_clear_faults FAULT_TYPE_VDD faultVddFsm).1 = true ∧
    fsm_get_state (fsm_clear_faults FAULT_TYPE_VDD faultVddFsm).2 = SAFETY_STATE_FAULT ∧
    (fsm_clear_faults FAULT_TYPE_VDD faultVddFsm).2.status.active_faults = 0 := by
  refine ⟨by decide, by decide, by decide, by decide⟩

lemma fsm_aggregate_faults_reduce (s : FsmState)
    (hsv : fsm_get_state s ≠ SAFETY_STATE_INVALID)
    (h1 : VERIFY_FAULT_FLAG s.status.fault_flags.pwr_fault
      s.status.fault_flags.pwr_fault_cmp = true)
    (h2 : VERIFY_FAULT_FLAG s.status.fault_flags.clk_fault
      s.status.fault_flags.clk_fault_cmp = true)
    (h3 : VERIFY_FAULT_FLAG s.status.fault_flags.mem_fault
      s.status.fault_flags.mem_fault_cmp = true) :
    fsm_aggregate_faults s =
      if aggregatedOf s ≠ FAULT_TYPE_NONE then
        if fsm_get_state s = SAFETY_STATE_NORMAL then
          fsm_transition SAFETY_STATE_FAULT (fsm_agg_s2 s)
        else (true, fsm_agg_s2 s)
      else (true, fsm_agg_s1 s) := by
  unfold fsm_aggregate_faults
  rw [if_neg hsv, if_neg (by simp [h1]), if_neg (by simp [h2]), if_neg (by simp [h3])]

/-- C2 (amended): invariant I3 holds where FAULT is entered — whenever
fsm_aggregate_faults succeeds from a NORMAL state and leaves the FSM in
FAULT, active_faults is non-zero. It does not survive fsm_clear_faults:
clearing every asserted flag while in FAULT leaves the state FAULT with
active_faults = 0 (see the counterexample). -/
theorem c2_fault_entry_active_nonzero (s s2 : FsmState) (b : Bool)
    (h : fsm_aggregate_faults s = (b, s2))
    (hn : fsm_get_state s = SAFETY_STATE_NORMAL)
    (hb : b = true)
    (hf : fsm_get_state s2 = SAFETY_STATE_FAULT) :
    s2.status.active_faults ≠ 0 := by
  subst hb
  have hcs : s.status.current_state = SAFETY_STATE_NORMAL :=
    fsm_get_state_eq_of_ne_invalid s _ hn (by decide)
  by_cases h1 : VERIFY_FAULT_FLAG s.status.fault_flags.pwr_fault
      s.status.fault_flags.pwr_fault_cmp = true
  case neg =>
    unfold fsm_aggregate_faults at h
    rw [if_neg (by rw [hn]; decide), if_pos (by simp [h1])] at h
    exact absurd (congrArg Prod.fst h).symm (by simp)
  by_cases h2 : VERIFY_FAULT_FLAG s.status.fault_flags.clk_fault
      s.status.fault_flags.clk_fault_cmp = true
  case neg =>
    unfold fsm_aggregate_faults at h
    rw [if_neg (by rw [hn]; decide), if_neg (by simp [h1]),
      if_pos (by simp [h2])] at h
    exact absurd (congrArg Prod.fst h).symm (by simp)
  by_cases h3 : VERIFY_FAULT_FLAG s.status.fault_flags.mem_fault
      s.status.fault_flags.mem_fault_cmp = true
  case neg =>
    unfold fsm_aggregate_faults at h
    rw [if_neg (by rw [hn]; decide), if_neg (by simp [h1]), if_neg (by simp [h2]),
      if_pos (by simp [h3])] at h
    exact absurd (congrArg Prod.fst h).symm (by simp)
  rw [fsm_aggregate_faults_reduce s (by rw [hn]; decide) h1 h2 h3, hn,
    if_pos rfl] at h
  by_cases hagg : aggregatedOf s ≠ FAULT_TYPE_NONE
  · rw [if_pos hagg] at h
    unfold fsm_transition at h
    split at h
    · exact absurd (congrArg Prod.fst h).symm (by simp)
    · simp only [fsm_agg_s2, fsm_agg_s1, hcs] at h
      rw [if_neg (by decide)] at h
      have h2' := congrArg Prod.snd h
      simp only at h2'
      rw [← h2']
      simpa [FAULT_TYPE_NONE] using hagg
  · rw [if_neg hagg] at h
    have h2' := congrArg Prod.snd h
    simp only at h2'
    rw [← h2'] at hf
    unfold fsm_get_state at hf
    simp only [fsm_agg_s1, hcs] at hf
    split at hf <;> simp_all [SAFETY_STATE_NORMAL, SAFETY_STATE_FAULT,
      SAFETY_STATE_INVALID]

/-- C2 witness: the amended statement instantiated on the concrete
NORMAL-state run that enters FAULT on the VDD fault. -/
theorem c2_fault_entry_active_nonzero_witness :
    fsm_aggregate_faults (vdd_isr_set_fault_flag normalFsm) = (true, faultVddFsm) ∧
    fsm_get_state (vdd_isr_set_fault_flag normalFsm) = SAFETY_STATE_NORMAL ∧
    fsm_get_state faultVddFsm = SAFETY_STATE_FAULT ∧
    faultVddFsm.status.active_faults ≠ 0 :=
  ⟨by decide, by decide, by decide,
    c2_fault_entry_active_nonzero (vdd_isr_set_fault_flag normalFsm) faultVddFsm
      true (by decide) (by decide) rfl (by decide)⟩

/-! ## The INVALID latch (claim C3) -/

lemma matrixAllows_invalid_row (j : Nat) : matrixAllows 5 j = false := by
  unfold matrixAllows g_transition_matrix
  rcases j with _ | _ | _ | _ | _ | _ | j <;> rfl

lemma fsm_aggregate_latched (s : FsmState)
    (h1 : s.status.current_state = 0xFF)
    (h2 : s.status.current_state_cmp = 0) :
    fsm_aggregate_faults s = (false, s) := by
  have hg : fsm_get_state s = SAFETY_STATE_INVALID := by
    unfold fsm_get_state
    rw [h1, h2]
    decide
  simp only [fsm_aggregate_faults, hg, reduceIte]

lemma latch_step (op : FsmOp) (s : FsmState)
    (h1 : s.status.current_state = 0xFF)
    (h2 : s.status.current_state_cmp = 0) :
    (fsm_step op s).status.current_state = 0xFF ∧
    (fsm_step op s).status.current_state_cmp = 0 := by
  cases op with
  | transition next =>
    simp only [fsm_step, fsm_transition]
    cases hini : s.initialized with
    | false =>
      simp only [hini, Bool.not_false, if_true]
      exact ⟨h1, h2⟩
    | true =>
      simp only [hini, Bool.not_true, Bool.false_eq_true, if_false, h1]
      have h5 : fsm_state_to_index 0xFF = 5 := by decide
      rw [h5, matrixAllows_invalid_row]
      simp only [Bool.not_false, if_true]
      exact ⟨rfl, by decide⟩
  | aggregate =>
    simp only [fsm_step]
    rw [fsm_aggregate_latched s h1 h2]
    exact ⟨h1, h2⟩
  | clearFaults mask =>
    simp only [fsm_step, fsm_clear_faults]
    rw [fsm_aggregate_latched
      { s with status :=
          { s.status with
              fault_flags := clearedFlags mask s.status.fault_flags } } h1 h2]
    exact ⟨h1, h2⟩

lemma latch_run (ops : List FsmOp) (s : FsmState)
    (h1 : s.status.current_state = 0xFF)
    (h2 : s.status.current_state_cmp = 0) :
    (fsm_run ops s).status.current_state = 0xFF ∧
    (fsm_run ops s).status.current_state_cmp = 0 := by
  induction ops generalizing s with
  | nil => exact ⟨h1, h2⟩
  | cons op rest ih =>
    have h := latch_step op s h1 h2
    simpa only [fsm_run, List.foldl_cons] using ih (fsm_step op s) h.1 h.2

lemma latch_entry (next : Nat) (s : FsmState)
    (hinit : s.initialized = true)
    (hbad : matrixAllows (fsm_state_to_index s.status.current_state)
      (fsm_state_to_index next) = false) :
    (fsm_step (.transition next) s).status.current_state = 0xFF ∧
    (fsm_step (.transition next) s).status.current_state_cmp = 0 := by
  simp only [fsm_step, fsm_transition, hinit, Bool.not_true, Bool.false_eq_true,
    if_false, hbad, Bool.not_false, if_true]
  exact ⟨rfl, by decide⟩

/-- C3: from any initialized module state, a single fsm_transition request
not admitted by the static matrix latches the state word to INVALID, and
every subsequent sequence of fsm_transition, fsm_aggregate_faults and
fsm_clear_faults calls leaves fsm_get_state returning INVALID. -/
theorem c3_invalid_latch_permanent (s : FsmState) (next : Nat) (ops : List FsmOp)
    (hinit : s.initialized = true)
    (hbad : matrixAllows (fsm_state_to_index s.status.current_state)
      (fsm_state_to_index next) = false) :
    fsm_get_state (fsm_run ops (fsm_step (.transition next) s)) =
      SAFETY_STATE_INVALID := by
  have h0 := latch_entry next s hinit hbad
  have h := latch_run ops _ h0.1 h0.2
  unfold fsm_get_state
  rw [h.1, h.2]
  decide

/-- C3 witness: requesting the inadmissible INIT to FAULT edge right
after initialization, followed by an aggregation, an admissible-looking
transition request and a clear, leaves fsm_get_state at INVALID. -/
theorem c3_invalid_latch_permanent_witness :
    postInitFsm.initialized = true ∧
    matrixAllows (fsm_state_to_index postInitFsm.status.current_state)
      (fsm_state_to_index SAFETY_STATE_FAULT) = false ∧
    fsm_get_state
      (fsm_run [.aggregate, .transition SAFETY_STATE_NORMAL, .clearFaults 7]
        (fsm_step (.transition SAFETY_STATE_FAULT) postInitFsm)) =
      SAFETY_STATE_INVALID :=
  ⟨by decide, by decide,
    c3_invalid_latch_permanent postInitFsm SAFETY_STATE_FAULT
      [.aggregate, .transition SAFETY_STATE_NORMAL, .clearFaults 7]
      (by decide) (by decide)⟩

/-- C4: whenever every per-source fault-flag pair satisfies the dual-rail
invariant and fsm_aggregate_faults reports success, the resulting
active_faults word is the OR of VDD, CLK and MEM for the flags that are
set, and its complement word is its 8-bit bitwise NOT. -/
theorem c4_aggregate_active_faults_or (s s2 : FsmState) (b : Bool)
    (h : fsm_aggregate_faults s = (b, s2))
    (hb : b = true)
    (h1 : VERIFY_FAULT_FLAG s.status.fault_flags.pwr_fault
      s.status.fault_flags.pwr_fault_cmp = true)
    (h2 : VERIFY_FAULT_FLAG s.status.fault_flags.clk_fault
      s.status.fault_flags.clk_fault_cmp = true)
    (h3 : VERIFY_FAULT_FLAG s.status.fault_flags.mem_fault
      s.status.fault_flags.mem_fault_cmp = true) :
    s2.status.active_faults =
      ((if s.status.fault_flags.pwr_fault ≠ 0 then FAULT_TYPE_VDD else 0) |||
       (if s.status.fault_flags.clk_fault ≠ 0 then FAULT_TYPE_CLK else 0) |||
       (if s.status.fault_flags.mem_fault ≠ 0 then FAULT_TYPE_MEM_ECC else 0)) ∧
    s2.status.active_faults_cmp = s2.status.active_faults ^^^ 0xFF := by
  subst hb
  by_cases hsv : fsm_get_state s = SAFETY_STATE_INVALID
  · unfold fsm_aggregate_faults at h
    rw [if_pos hsv] at h
    exact absurd (congrArg Prod.fst h).symm (by simp)
  · rw [fsm_aggregate_faults_reduce s hsv h1 h2 h3] at h
    by_cases hagg : aggregatedOf s ≠ FAULT_TYPE_NONE
    · rw [if_pos hagg] at h
      by_cases hn : fsm_get_state s = SAFETY_STATE_NORMAL
      · rw [if_pos hn] at h
        have hcs : s.status.current_state = SAFETY_STATE_NORMAL :=
          fsm_get_state_eq_of_ne_invalid s _ hn (by decide)
        unfold fsm_transition at h
        split at h
        · exact absurd (congrArg Prod.fst h).symm (by simp)
        · simp only [fsm_agg_s2, fsm_agg_s1, hcs] at h
          rw [if_neg (by decide)] at h
          have h2' := congrArg Prod.snd h
          simp only at h2'
          rw [← h2']
          exact ⟨by simp [aggregatedOf], rfl⟩
      · rw [if_neg hn] at h
        have h2' := congrArg Prod.snd h
        simp only at h2'
        rw [← h2']
        simp only [fsm_agg_s2, fsm_agg_s1]
        exact ⟨by simp [aggregatedOf], trivial⟩
    · rw [if_neg hagg] at h
      have h2' := congrArg Prod.snd h
      simp only at h2'
      rw [← h2']
      simp only [fsm_agg_s1]
      exact ⟨by simp [aggregatedOf], trivial⟩

/-- C4 witness: the aggregation run with the VDD flag asserted and all
pairs consistent yields active_faults = VDD with complement 0xFE. -/
theorem c4_aggregate_active_faults_or_witness :
    fsm_aggregate_faults (vdd_isr_set_fault_flag postInitFsm) =
      (true, (fsm_aggregate_faults (vdd_isr_set_fault_flag postInitFsm)).2) ∧
    VERIFY_FAULT_FLAG (vdd_isr_set_fault_flag postInitFsm).status.fault_flags.pwr_fault
      (vdd_isr_set_fault_flag postInitFsm).status.fault_flags.pwr_fault_cmp = true ∧
    VERIFY_FAULT_FLAG (vdd_isr_set_fault_flag postInitFsm).status.fault_flags.clk_fault
      (vdd_isr_set_fault_flag postInitFsm).status.fault_flags.clk_fault_cmp = true ∧
    VERIFY_FAULT_FLAG (vdd_isr_set_fault_flag postInitFsm).status.fault_flags.mem_fault
      (vdd_isr_set_fault_flag postInitFsm).status.fault_flags.mem_fault_cmp = true ∧
    ((fsm_aggregate_faults (vdd_isr_set_fault_flag postInitFsm)).2.status.active_faults =
      ((if (vdd_isr_set_fault_flag postInitFsm).status.fault_flags.pwr_fault ≠ 0 then
          FAULT_TYPE_VDD else 0) |||
       (if (vdd_isr_set_fault_flag postInitFsm).status.fault_flags.clk_fault ≠ 0 then
          FAULT_TYPE_CLK else 0) |||
       (if (vdd_isr_set_fault_flag postInitFsm).status.fault_flags.mem_fault ≠ 0 then
          FAULT_TYPE_MEM_ECC else 0)) ∧
     (fsm_aggregate_faults (vdd_isr_set_fault_flag postInitFsm)).2.status.active_faults_cmp =
      (fsm_aggregate_faults (vdd_isr_set_fault_flag postInitFsm)).2.status.active_faults ^^^
        0xFF) :=
  ⟨by decide, by decide, by decide, by decide,
    c4_aggregate_active_faults_or (vdd_isr_set_fault_flag postInitFsm)
      (fsm_aggregate_faults (vdd_isr_set_fault_flag postInitFsm)).2 true
      (by decide) rfl (by decide) (by decide) (by decide)⟩

/-! ## Corrupted dual-rail reads (claim C5) -/

/-- C5 counterexample: with the flag and its complement both corrupted to
equal halves, clk_event_handler_get_fault_flag reports the logical value
false (not fault-asserted) alongside its DCLS error, and
ecc_fault_is_active reports plain false with no distinct error — the
readers do not treat the logical value as fault-asserted. -/
theorem c5_corruption_read_counterexample :
    clk_event_handler_get_fault_flag
      { clk_fault_event_count := 0, clk_fault_flag := 0x01
        clk_fault_flag_complement := 0x01, clk_loss_timestamp := 0
        clk_isr_nesting_level := 0 } = (SAFETY_DCLS_ERROR, false) ∧
    ecc_fault_is_active
      { mem_fault_flag := 0xFF, mem_fault_flag_complement := 0xFF
        mem_isr_nesting_count := 0, mem_fault_event_count := 0 } = false := by
  exact ⟨by decide, by decide⟩

/-- C5 (amended): a dual-rail flag read whose halves do not XOR to 0xFF
reports the logical value as NOT asserted, and the corruption is
escalated only where the interface allows: clk_event_handler_get_fault_flag
writes false and returns SAFETY_DCLS_ERROR; fault_aggregate (entered
with the busy gate free) aborts with failure on corruption of ANY of the
three flag pairs, writing no output and leaving the safety status record
unmutated, with only its diagnostic attempt counter advancing as the
busy gate is taken and released; and ecc_fault_is_active returns a plain
false indistinguishable from the no-fault case. -/
theorem c5_corruption_reported_not_asserted :
    (∀ st : ClkState,
      (st.clk_fault_flag ^^^ st.clk_fault_flag_complement) ≠ 0xFF →
      clk_event_handler_get_fault_flag st = (SAFETY_DCLS_ERROR, false)) ∧
    (∀ m : MemFaultState,
      (m.mem_fault_flag ^^^ m.mem_fault_flag_complement) ≠ 0xFF →
      ecc_fault_is_active m = false) ∧
    (∀ (a : AggregatorState) (s : FsmState),
      a.g_aggregator_busy = false →
      ((s.status.fault_flags.pwr_fault ^^^ s.status.fault_flags.pwr_fault_cmp) ≠ 0xFF ∨
       (s.status.fault_flags.clk_fault ^^^ s.status.fault_flags.clk_fault_cmp) ≠ 0xFF ∨
       (s.status.fault_flags.mem_fault ^^^ s.status.fault_flags.mem_fault_cmp) ≠ 0xFF) →
      fault_aggregate a s =
        (false, none,
          { g_aggregator_busy := false
            g_aggregation_attempts := (a.g_aggregation_attempts + 1) % 4294967296 },
          s)) := by
  refine ⟨?_, ?_, ?_⟩
  · intro st h
    unfold clk_event_handler_get_fault_flag
    rw [if_pos h]
  · intro m h
    unfold ecc_fault_is_active
    rw [if_pos h]
  · intro a s hfree h
    unfold fault_aggregate
    rw [hfree]
    simp only [Bool.false_eq_true, if_false]
    cases hst : fsm_get_status s with
    | none => rfl
    | some status =>
      have hss : status = s.status := by
        unfold fsm_get_status at hst
        split at hst
        · exact absurd hst (by simp)
        split at hst
        · exact absurd hst (by simp)
        · exact (Option.some.inj hst).symm
      dsimp only
      by_cases hv1 : VERIFY_FAULT_FLAG status.fault_flags.pwr_fault
          status.fault_flags.pwr_fault_cmp = true
      case neg =>
        simp only [Bool.not_eq_true] at hv1
        rw [if_pos (by simp [hv1])]
      case pos =>
      rw [if_neg (by simp [hv1])]
      by_cases hv2 : VERIFY_FAULT_FLAG status.fault_flags.clk_fault
          status.fault_flags.clk_fault_cmp = true
      case neg =>
        simp only [Bool.not_eq_true] at hv2
        rw [if_pos (by simp [hv2])]
      case pos =>
      rw [if_neg (by simp [hv2])]
      by_cases hv3 : VERIFY_FAULT_FLAG status.fault_flags.mem_fault
          status.fault_flags.mem_fault_cmp = true
      case neg =>
        simp only [Bool.not_eq_true] at hv3
        rw [if_pos (by simp [hv3])]
      case pos =>
      exfalso
      rw [hss] at hv1 hv2 hv3
      simp only [VERIFY_FAULT_FLAG, beq_iff_eq] at hv1 hv2 hv3
      rcases h with h | h | h
      · exact h hv1
      · exact h hv2
      · exact h hv3

/-- C5 witness: the amended behavior instantiated on concrete corrupted
pairs for all three readers, exercising the fault_aggregate conjunct on
a corrupted CLK flag pair. -/
theorem c5_corruption_reported_not_asserted_witness :
    ((0x01 : Nat) ^^^ 0x01) ≠ 0xFF ∧
    clk_event_handler_get_fault_flag
      { clk_fault_event_count := 3, clk_fault_flag := 0x01
        clk_fault_flag_complement := 0x01, clk_loss_timestamp := 3
        clk_isr_nesting_level := 0 } = (SAFETY_DCLS_ERROR, false) ∧
    ecc_fault_is_active
      { mem_fault_flag := 0x00, mem_fault_flag_complement := 0x00
        mem_isr_nesting_count := 0, mem_fault_event_count := 0 } = false ∧
    fault_aggregate { g_aggregator_busy := false, g_aggregation_attempts := 5 }
        corruptClkFsm =
      (false, none, { g_aggregator_busy := false, g_aggregation_attempts := 6 },
        corruptClkFsm) :=
  ⟨by decide,
    c5_corruption_reported_not_asserted.1
      { clk_fault_event_count := 3, clk_fault_flag := 0x01
        clk_fault_flag_complement := 0x01, clk_loss_timestamp := 3
        clk_isr_nesting_level := 0 } (by decide),
    c5_corruption_reported_not_asserted.2.1
      { mem_fault_flag := 0x00, mem_fault_flag_complement := 0x00
        mem_isr_nesting_count := 0, mem_fault_event_count := 0 } (by decide),
    c5_corruption_reported_not_asserted.2.2
      { g_aggregator_busy := false, g_aggregation_attempts := 5 }
      corruptClkFsm rfl (by decide)⟩

/-! ## ISR nesting behavior (claim C6) -/

lemma clk_isr_entry_level (st : ClkState) :
    (clk_isr_entry st).clk_isr_nesting_level =
      (st.clk_isr_nesting_level + 1) % 256 := rfl

lemma clk_nest_level_restore : ∀ (d : Nat) (st : ClkState),
    st.clk_isr_nesting_level + d ≤ CLK_ISR_MAX_NESTING →
    (clk_loss_isr_nested d st).clk_isr_nesting_level =
      st.clk_isr_nesting_level := by
  intro d
  induction d with
  | zero => intro st _; rfl
  | succ n ih =>
    intro st h
    have h8 : st.clk_isr_nesting_level + (n + 1) ≤ 8 := h
    have hmod : (st.clk_isr_nesting_level + 1) % 256 =
        st.clk_isr_nesting_level + 1 := Nat.mod_eq_of_lt (by omega)
    unfold clk_loss_isr_nested
    rw [if_neg (by unfold CLK_ISR_MAX_NESTING; omega)]
    show (clk_loss_isr_nested n (clk_isr_entry st)).clk_isr_nesting_level - 1 =
      st.clk_isr_nesting_level
    rw [ih (clk_isr_entry st) (by rw [clk_isr_entry_level, hmod]; omega)]
    rw [clk_isr_entry_level, hmod]
    omega

lemma ecc_isr_entry_count (st : MemFaultState) :
    (ecc_isr_entry st).mem_isr_nesting_count =
      st.mem_isr_nesting_count + 1 := rfl

lemma ecc_nest_count_restore : ∀ (d : Nat) (st : MemFaultState),
    st.mem_isr_nesting_count + d ≤ ECC_ISR_NESTING_MAX →
    (ecc_fault_isr_nested d st).mem_isr_nesting_count =
      st.mem_isr_nesting_count := by
  intro d
  induction d with
  | zero => intro st _; rfl
  | succ n ih =>
    intro st h
    have h8 : st.mem_isr_nesting_count + (n + 1) ≤ 8 := h
    unfold ecc_fault_isr_nested
    rw [if_neg (by unfold ECC_ISR_NESTING_MAX; omega)]
    show (ecc_fault_isr_nested n (ecc_isr_entry st)).mem_isr_nesting_count - 1 =
      st.mem_isr_nesting_count
    rw [ih (ecc_isr_entry st) (by rw [ecc_isr_entry_count]; omega)]
    rw [ecc_isr_entry_count]
    omega

/-- C6 counterexample: nine nested ECC ISR entries from the initialized
handler end with flag = 0xFF and complement = 0x00 — two different
halves forming a valid dual-rail pair, so no corruption is latched:
subsequent reads report an asserted fault, not the corruption error. -/
theorem c6_ecc_overnest_no_corruption :
    (ecc_fault_isr_nested 9 ecc_handler_init_state).mem_fault_flag = 0xFF ∧
    (ecc_fault_isr_nested 9 ecc_handler_init_state).mem_fault_flag_complement = 0x00 ∧
    (0xFF : Nat) ≠ 0x00 ∧
    ecc_fault_detect_corruption (ecc_fault_isr_nested 9 ecc_handler_init_state) = false ∧
    ecc_fault_is_active (ecc_fault_isr_nested 9 ecc_handler_init_state) = true := by
  refine ⟨by decide, by decide, by decide, by decide, by decide⟩

/-- C6 (amended): for nested fault-ISR invocations of depth d with
d ≤ NEST_MAX the nesting counter returns to its starting point (0 after
the outermost exit) in both handlers; past NEST_MAX the clock ISR writes
0xFF to both halves, a genuine dual-rail violation that subsequent clock
flag reads report as SAFETY_DCLS_ERROR, while the ECC ISR writes the
valid pair 0xFF/0x00 that subsequent reads report as an asserted fault
rather than a corruption. -/
theorem c6_nesting_behavior :
    (∀ (d : Nat) (st : ClkState),
      st.clk_isr_nesting_level + d ≤ CLK_ISR_MAX_NESTING →
      (clk_loss_isr_nested d st).clk_isr_nesting_level =
        st.clk_isr_nesting_level) ∧
    (∀ (d : Nat) (st : MemFaultState),
      st.mem_isr_nesting_count + d ≤ ECC_ISR_NESTING_MAX →
      (ecc_fault_isr_nested d st).mem_isr_nesting_count =
        st.mem_isr_nesting_count) ∧
    ((clk_loss_isr_nested 9 clk_event_handler_init).clk_fault_flag = 0xFF ∧
     (clk_loss_isr_nested 9 clk_event_handler_init).clk_fault_flag_complement = 0xFF ∧
     (clk_loss_isr_nested 9 clk_event_handler_init).clk_isr_nesting_level = 0 ∧
     clk_event_handler_get_fault_flag (clk_loss_isr_nested 9 clk_event_handler_init) =
       (SAFETY_DCLS_ERROR, false)) ∧
    ((ecc_fault_isr_nested 9 ecc_handler_init_state).mem_fault_flag = 0xFF ∧
     (ecc_fault_isr_nested 9 ecc_handler_init_state).mem_fault_flag_complement = 0x00 ∧
     (ecc_fault_isr_nested 9 ecc_handler_init_state).mem_isr_nesting_count = 0 ∧
     ecc_fault_detect_corruption (ecc_fault_isr_nested 9 ecc_handler_init_state) = false ∧
     ecc_fault_is_active (ecc_fault_isr_nested 9 ecc_handler_init_state) = true) := by
  refine ⟨clk_nest_level_restore, ecc_nest_count_restore, ?_, ?_⟩
  · refine ⟨by decide, by decide, by decide, by decide⟩
  · refine ⟨by decide, by decide, by decide, by decide, by decide⟩

/-- C6 witness: the in-budget parts instantiated at depth 8 from the
initialized handler states, alongside the concrete over-nesting runs. -/
theorem c6_nesting_behavior_witness :
    clk_event_handler_init.clk_isr_nesting_level + 8 ≤ CLK_ISR_MAX_NESTING ∧
    (clk_loss_isr_nested 8 clk_event_handler_init).clk_isr_nesting_level =
      clk_event_handler_init.clk_isr_nesting_level ∧
    ecc_handler_init_state.mem_isr_nesting_count + 8 ≤ ECC_ISR_NESTING_MAX ∧
    (ecc_fault_isr_nested 8 ecc_handler_init_state).mem_isr_nesting_count =
      ecc_handler_init_state.mem_isr_nesting_count :=
  ⟨by decide,
    c6_nesting_behavior.1 8 clk_event_handler_init (by decide),
    by decide,
    c6_nesting_behavior.2.1 8 ecc_handler_init_state (by decide)⟩

/-! ## Recovery timeout (claim C7) -/

/-- One 10 ms task tick of the clock recovery subsystem together with the
statistics record: the tick runs clk_service_task on the hardware fault
signal. No call site in the sources invokes
fault_stats_record_recovery_failure — the timeout branch of
clk_service_task holds only a TODO comment in its place — so the
statistics record is untouched by a tick. -/
def clk_tick_with_stats (fault_asserted : Bool)
    (sys : ClkService × FaultStatistics) : ClkService × FaultStatistics :=
  (clk_service_task fault_asserted sys.1, sys.2)

/-- A run of task ticks under the given per-tick fault signal trace. -/
def clk_run_ticks (signal : List Bool) (sys : ClkService × FaultStatistics) :
    ClkService × FaultStatistics :=
  signal.foldl (fun q f => clk_tick_with_stats f q) sys

/-- The clock service parked in FAULT_ACTIVE at tick 0 (one recovery
attempt counted), with seven recovery failures already on record. -/
def c7_start : ClkService × FaultStatistics :=
  ({ clk_service_state := CLK_SERVICE_STATE_FAULT_ACTIVE
     clk_recovery_timeout_counter := 0
     clk_stability_counter := 0
     clk_recovery_attempts := 1 },
   { fault_stats_zero with recovery_failures := 7 })

/-- C7: with the hardware fault signal held asserted from FAULT_ACTIVE,
the timeout counter reaches 9 after nine ticks with the service still in
FAULT_ACTIVE, and the tenth tick abandons the recovery back to IDLE —
but recovery_failures stays at its prior value (7): the timeout branch
never records the failure, against the claim and spec section 4.4. -/
theorem c7_timeout_returns_idle_without_failure_record :
    (clk_run_ticks (List.replicate 9 true) c7_start).1.clk_service_state =
      CLK_SERVICE_STATE_FAULT_ACTIVE ∧
    (clk_run_ticks (List.replicate 9 true) c7_start).1.clk_recovery_timeout_counter = 9 ∧
    (clk_run_ticks (List.replicate 10 true) c7_start).1.clk_service_state =
      CLK_SERVICE_STATE_IDLE ∧
    (clk_run_ticks (List.replicate 10 true) c7_start).2.recovery_failures = 7 ∧
    (fault_stats_record_recovery_failure false
      (clk_run_ticks (List.replicate 10 true) c7_start).2).2.recovery_failures = 8 := by
  refine ⟨by decide, by decide, by decide, by decide, by decide⟩

/-! ## Diagnostic coverage arithmetic (claim C8) -/

lemma calculate_dc_core_le_100 (d u : Nat) : calculate_dc_core d u ≤ 100 := by
  simp only [calculate_dc_core]
  split
  · omega
  · split <;> omega

/-- C8 counterexample: with detected = 2^30 and undetected = 0 the
32-bit product detected * 100 wraps to 0, so the stored DC is 0 while
the claimed value floor(detected * 100 / (detected + undetected))
is 100. -/
theorem c8_dc_overflow_counterexample :
    fault_stats_calculate_dc FAULT_TYPE_VDD
      { fault_stats_zero with vdd_faults_detected := 1073741824 } = some 0 ∧
    1073741824 * 100 / (1073741824 + 0) = 100 := by
  refine ⟨by decide, by decide⟩

/-- C8 (amended): every stored DC value lies in [0, 100], and it equals
floor(detected * 100 / (detected + undetected)) whenever the denominator
is positive and neither the 32-bit product detected * 100 nor the 32-bit
sum detected + undetected wraps; the zero denominator stores 0. With
counters large enough to wrap the product, the stored value diverges
from the formula (see the counterexample). -/
theorem c8_dc_range_and_formula :
    (∀ (st : FaultStatistics) (t r : Nat),
      fault_stats_calculate_dc t st = some r → r ≤ 100) ∧
    (∀ d u : Nat, 0 < d + u → d + u < 4294967296 → d * 100 < 4294967296 →
      calculate_dc_core d u = d * 100 / (d + u)) ∧
    (∀ d u : Nat, d + u = 0 → calculate_dc_core d u = 0) := by
  refine ⟨?_, ?_, ?_⟩
  · intro st t r h
    unfold fault_stats_calculate_dc at h
    split at h
    · cases h
      exact calculate_dc_core_le_100 _ _
    split at h
    · cases h
      exact calculate_dc_core_le_100 _ _
    split at h
    · cases h
      exact calculate_dc_core_le_100 _ _
    · cases h
  · intro d u hpos hsum hprod
    unfold calculate_dc_core
    rw [Nat.mod_eq_of_lt hsum, Nat.mod_eq_of_lt hprod]
    have hq : d * 100 / (d + u) ≤ 100 := by
      calc d * 100 / (d + u) ≤ (d + u) * 100 / (d + u) :=
            Nat.div_le_div_right (by omega)
        _ = 100 := Nat.mul_div_cancel_left 100 hpos
    rw [if_neg (by omega), Nat.mod_eq_of_lt (by omega), if_neg (by omega)]
  · intro d u h
    simp only [calculate_dc_core]
    rw [h]
    simp

/-- C8 witness: the amended formula instantiated at detected = 3,
undetected = 1, giving 75, and the range fact at the VDD slot. -/
theorem c8_dc_range_and_formula_witness :
    (0 < 3 + 1 ∧ 3 + 1 < 4294967296 ∧ 3 * 100 < 4294967296 ∧
      calculate_dc_core 3 1 = 3 * 100 / (3 + 1)) ∧
    (fault_stats_calculate_dc FAULT_TYPE_VDD
        { fault_stats_zero with vdd_faults_detected := 3, vdd_faults_undetected := 1 } =
      some 75 ∧ 75 ≤ 100) :=
  ⟨⟨by decide, by decide, by decide,
      c8_dc_range_and_formula.2.1 3 1 (by decide) (by decide) (by decide)⟩,
    by decide,
    c8_dc_range_and_formula.1
      { fault_stats_zero with vdd_faults_detected := 3, vdd_faults_undetected := 1 }
      FAULT_TYPE_VDD 75 (by decide)⟩

/-! ## Fault rate per hour (claim C9) -/

/-- The statistics record with two detected VDD faults over exactly one
hour of uptime. -/
def c9_stats : FaultStatistics :=
  { fault_stats_zero with vdd_faults_detected := 2, uptime_ms := 3600000 }

/-- C9: at two detected faults over one hour of uptime, the source
computes total * 3600 / uptime_ms = 0 faults per hour, while the
specified formula total * 3,600,000 / uptime_ms gives 2 — the code
multiplies by 3600 instead of 3,600,000 (and guards on a computed
whole-hours value it never uses), so the claimed formula is not what the
function computes. -/
theorem c9_fault_rate_divergence :
    fault_stats_get_fault_rate_per_hour c9_stats = some 0 ∧
    spec_fault_rate_per_hour c9_stats = 2 ∧
    some (spec_fault_rate_per_hour c9_stats) ≠
      fault_stats_get_fault_rate_per_hour c9_stats := by
  refine ⟨by decide, by decide, by decide⟩

/-! ## ECC fault clear (claim C10) -/

/-- C10: ecc_fault_clear returns true and rewrites the pair to the
cleared encoding 0x00/0xFF exactly when the current pair is consistent
and asserted; in every other case — flag already clear, or either kind
of dual-rail corruption — it returns false and leaves both halves (and
the counters) unchanged. -/
theorem c10_ecc_fault_clear_behavior (f c n e : Nat) :
    ecc_fault_clear
      { mem_fault_flag := f, mem_fault_flag_complement := c
        mem_isr_nesting_count := n, mem_fault_event_count := e } =
      if (f ^^^ c) = 0xFF ∧ f ≠ 0 then
        (true,
          { mem_fault_flag := 0x00, mem_fault_flag_complement := 0xFF
            mem_isr_nesting_count := n, mem_fault_event_count := e })
      else
        (false,
          { mem_fault_flag := f, mem_fault_flag_complement := c
            mem_isr_nesting_count := n, mem_fault_event_count := e }) := by
  unfold ecc_fault_clear ecc_fault_is_active
  by_cases h1 : (f ^^^ c) = 0xFF <;> by_cases h2 : f = 0 <;>
    simp [h1, h2]
